import Mathlib

/-!
Verification development for `hc-tfe-attestation-probe.py`.

The Python program audits a Terraform-Enterprise-style API: for each
workspace of an organisation it inspects the most recent run, resolves the
pair of configuration versions (current, previous), downloads and extracts
both archives into two fixed scratch directories, and prints a diff.

This file is a shallow embedding of the parts of that program that the
frozen claims are about:

* a `Json` value type mirroring what `response.json()` yields, together
  with Python-faithful accessors (`getKey`, `getIdx`, `lenPy`) whose error
  cases correspond to `KeyError` / `IndexError` / `TypeError`;
* a faithful port of the `difflib` pipeline
  (`SequenceMatcher.find_longest_match`, `get_matching_blocks`,
  `get_opcodes`, `get_grouped_opcodes`, `unified_diff`) as used at line
  352 of the source (where it is applied to the two directory *path
  strings*, i.e. to sequences of characters);
* `handleDirectories` (scratch-directory create/delete) as a function on
  an abstract file-system state (the list of existing directories);
* the per-workspace configuration-version section of `runReport`
  (lines 263-358) split into `cvGate` (lines 263-277), `resolveCv`
  (lines 279-291) and `downloadAndDiff` (lines 293-358), producing an
  `Outcome` and a trace of side-effect `Event`s;
* the orchestration of `main` (`mainRun`): create directories, loop over
  workspaces, delete directories only when every workspace completed;
* the module-level initialisation of `TFE_ADDR` (lines 28-30) and the
  environment checks of `main` (lines 447-457) as `programStart`;
* the `runReport` header output (lines 189-194) as `reportHeader`, for
  the token-confidentiality claim.

Loop constructs of the Python standard library with no structural
recursion are given an explicit fuel parameter; every call site passes
fuel that provably dominates the number of iterations, so the embedded
functions agree with the originals on all inputs that occur.
-/

/-! ## Python-style JSON values and accessors -/

/-- JSON values as returned by `response.json()` in the source. -/
inductive Json where
  | null : Json
  | str (s : String) : Json
  | num (n : Int) : Json
  | bool (b : Bool) : Json
  | arr (elems : List Json) : Json
  | obj (fields : List (String × Json)) : Json

/-- Python `d[k]` on a parsed JSON value: `KeyError` when the key is
missing from an object, `TypeError` when subscripting a non-object with a
string key. -/
def getKey (j : Json) (k : String) : Except String Json :=
  match j with
  | Json.obj kvs =>
    match kvs.find? (fun p => p.1 == k) with
    | some p => Except.ok p.2
    | none => Except.error "KeyError"
  | _ => Except.error "TypeError"

/-- Python `xs[i]` on a parsed JSON value: `IndexError` when the index is
out of range of an array, `TypeError` otherwise. -/
def getIdx (j : Json) (i : Nat) : Except String Json :=
  match j with
  | Json.arr xs =>
    match xs.get? i with
    | some x => Except.ok x
    | none => Except.error "IndexError"
  | _ => Except.error "TypeError"

/-- Python `len()` on a parsed JSON value: the number of *keys* of an
object, the number of elements of an array, the length of a string;
`TypeError` otherwise.  Note that on an object this is NOT the length of
its `"data"` list. -/
def lenPy (j : Json) : Except String Nat :=
  match j with
  | Json.obj kvs => Except.ok kvs.length
  | Json.arr xs => Except.ok xs.length
  | Json.str s => Except.ok s.length
  | _ => Except.error "TypeError"

/-- Python `s == j` comparing a string with an arbitrary JSON value:
true exactly when `j` is the same string (comparisons across types are
simply unequal in Python). -/
def jsonEqStr (j : Json) (s : String) : Bool :=
  match j with
  | Json.str t => t == s
  | _ => false

/-- Rendering of a JSON value inside a Python f-string (`str()`); only
the string case matters for the claims. -/
def jsonToStr (j : Json) : String :=
  match j with
  | Json.str s => s
  | Json.num n => toString n
  | Json.bool b => if b then "True" else "False"
  | Json.null => "None"
  | Json.arr _ => "[...]"
  | Json.obj _ => "{...}"

/-- Python `str.startswith`, i.e. the characters of the candidate are a
prefix of the characters of the subject. -/
def startsWithPy (s p : String) : Bool :=
  p.data.isPrefixOf s.data

/-! ## Global scratch paths (source lines 38-41) -/

def cv0tgzDir : String := "/var/tmp/cv0"
def cv1tgzDir : String := "/var/tmp/cv1"
def cv0tgzPath : String := "/var/tmp/cv0blob.tgz"
def cv1tgzPath : String := "/var/tmp/cv1blob.tgz"

/-! ## Port of the difflib pipeline

The source (line 352) calls
`difflib.unified_diff(cv0tgzDir, cv1tgzDir, fromfile=cv0tgzDir,
tofile=cv1tgzDir, lineterm='', n=0)`.
Passing the two *path strings* makes difflib treat them as sequences of
characters.  The port below follows CPython `difflib.py`
(`SequenceMatcher` with `isjunk=None`; `autojunk` never fires since the
sequences are far shorter than 200 elements, so the junk sets are empty).
-/

/-- Equality of two optional characters; false when either is absent
(an absent element corresponds to an out-of-range access, which the
original never performs). -/
def optEqChar (x y : Option Char) : Bool :=
  match x, y with
  | some u, some v => u == v
  | _, _ => false

/-- Ascending list of indices `j` of `b` with `b[j] = c`
(the `b2j` table of `SequenceMatcher`). -/
def bIndices (b : List Char) (c : Char) : List Nat :=
  (List.range b.length).filter (fun j => optEqChar (b.get? j) (some c))

/-- Lookup in the `j2len` map with default 0 (`j2len.get(j-1, 0)`). -/
def lookupD (m : List (Nat × Nat)) (k : Nat) : Nat :=
  match m.find? (fun p => p.1 == k) with
  | some p => p.2
  | none => 0

/-- Inner loop of `find_longest_match` for a fixed row `i`: walk the
matching `j` indices, extend diagonal run lengths from the previous row
(`j2len`), and update the best block.  Returns the new row map and the
updated best `(besti, bestj, bestsize)`. -/
def flmRow (i : Nat) (j2len : List (Nat × Nat)) (best : Nat × Nat × Nat) :
    List Nat → List (Nat × Nat) × (Nat × Nat × Nat)
  | [] => ([], best)
  | j :: js =>
    let k := (if j = 0 then 0 else lookupD j2len (j - 1)) + 1
    let best1 := if k > best.2.2 then (i + 1 - k, j + 1 - k, k) else best
    let (m, best2) := flmRow i j2len best1 js
    ((j, k) :: m, best2)

/-- Outer loop of `find_longest_match` over rows `i` of `a`. -/
def flmRows (a b : List Char) (blo bhi : Nat) :
    List Nat → List (Nat × Nat) → Nat × Nat × Nat → Nat × Nat × Nat
  | [], _, best => best
  | i :: is, j2len, best =>
    let js := (bIndices b (a.getD i ' ')).filter
      (fun j => Nat.ble blo j && Nat.blt j bhi)
    let (m, best1) := flmRow i j2len best js
    flmRows a b blo bhi is m best1

/-- The `while besti > alo and bestj > blo and a[besti-1] == b[bestj-1]`
extension of `find_longest_match` (the junk set is empty, so the junk
guard is vacuous).  `fuel` dominates the iteration count: each step
decreases `besti`, so `fuel = besti` always suffices. -/
def extendLeftLoop (a b : List Char) (alo blo : Nat) :
    Nat → Nat → Nat → Nat → Nat × Nat × Nat
  | 0, bi, bj, bs => (bi, bj, bs)
  | fuel + 1, bi, bj, bs =>
    if Nat.blt alo bi && Nat.blt blo bj &&
        optEqChar (a.get? (bi - 1)) (b.get? (bj - 1)) then
      extendLeftLoop a b alo blo fuel (bi - 1) (bj - 1) (bs + 1)
    else (bi, bj, bs)

/-- The matching right-extension loop; each step increases `besti+bestsize`
which stays below `ahi`, so `fuel = ahi` always suffices. -/
def extendRightLoop (a b : List Char) (ahi bhi bi bj : Nat) :
    Nat → Nat → Nat
  | 0, bs => bs
  | fuel + 1, bs =>
    if Nat.blt (bi + bs) ahi && Nat.blt (bj + bs) bhi &&
        optEqChar (a.get? (bi + bs)) (b.get? (bj + bs)) then
      extendRightLoop a b ahi bhi bi bj fuel (bs + 1)
    else bs

/-- Port of `SequenceMatcher.find_longest_match` on the slice
`a[alo:ahi]`, `b[blo:bhi]`. -/
def findLongestMatch (a b : List Char) (alo ahi blo bhi : Nat) :
    Nat × Nat × Nat :=
  let rows := (List.range (ahi - alo)).map (fun d => alo + d)
  let best := flmRows a b blo bhi rows [] (alo, blo, 0)
  let ext := extendLeftLoop a b alo blo best.1 best.1 best.2.1 best.2.2
  let bs := extendRightLoop a b ahi bhi ext.1 ext.2.1 ahi ext.2.2
  (ext.1, ext.2.1, bs)

/-- Recursive splitting of `get_matching_blocks` (the source uses an
explicit queue and then sorts; left-to-right recursion yields the sorted
order directly).  `fuel` dominates the recursion depth, which is bounded
by the total span. -/
def matchBlocksRec (a b : List Char) :
    Nat → Nat → Nat → Nat → Nat → List (Nat × Nat × Nat)
  | 0, _, _, _, _ => []
  | fuel + 1, alo, ahi, blo, bhi =>
    let r := findLongestMatch a b alo ahi blo bhi
    let i := r.1
    let j := r.2.1
    let k := r.2.2
    if k = 0 then []
    else
      (if alo < i ∧ blo < j then matchBlocksRec a b fuel alo i blo j else []) ++
      ((i, j, k) ::
        (if i + k < ahi ∧ j + k < bhi then
          matchBlocksRec a b fuel (i + k) ahi (j + k) bhi
        else []))

/-- The adjacent-block merging pass of `get_matching_blocks`
(`i1, j1, k1` accumulate the pending block, starting from `(0,0,0)`). -/
def mergeAdjacent : List (Nat × Nat × Nat) → Nat → Nat → Nat →
    List (Nat × Nat × Nat)
  | [], i1, j1, k1 => if k1 ≠ 0 then [(i1, j1, k1)] else []
  | (i2, j2, k2) :: rest, i1, j1, k1 =>
    if i1 + k1 = i2 ∧ j1 + k1 = j2 then mergeAdjacent rest i1 j1 (k1 + k2)
    else if k1 ≠ 0 then (i1, j1, k1) :: mergeAdjacent rest i2 j2 k2
    else mergeAdjacent rest i2 j2 k2

/-- Port of `SequenceMatcher.get_matching_blocks`, with the `(len(a), len(b), 0)`
sentinel appended. -/
def getMatchingBlocks (a b : List Char) : List (Nat × Nat × Nat) :=
  let raw := matchBlocksRec a b (a.length + b.length + 1) 0 a.length 0 b.length
  mergeAdjacent raw 0 0 0 ++ [(a.length, b.length, 0)]

/-- Opcode tags of `SequenceMatcher.get_opcodes`. -/
inductive Tag where
  | replace : Tag
  | delete : Tag
  | insert : Tag
  | equal : Tag
deriving DecidableEq, Repr

/-- One opcode `(tag, i1, i2, j1, j2)`. -/
structure Op where
  tag : Tag
  i1 : Nat
  i2 : Nat
  j1 : Nat
  j2 : Nat
deriving DecidableEq, Repr

/-- Loop body of `get_opcodes` over the matching blocks. -/
def getOpcodesGo : List (Nat × Nat × Nat) → Nat → Nat → List Op
  | [], _, _ => []
  | (ai, bj, size) :: rest, i, j =>
    let pending : List Op :=
      if i < ai ∧ j < bj then [⟨Tag.replace, i, ai, j, bj⟩]
      else if i < ai then [⟨Tag.delete, i, ai, j, bj⟩]
      else if j < bj then [⟨Tag.insert, i, ai, j, bj⟩]
      else []
    let eqOps : List Op :=
      if size ≠ 0 then [⟨Tag.equal, ai, ai + size, bj, bj + size⟩] else []
    pending ++ eqOps ++ getOpcodesGo rest (ai + size) (bj + size)

/-- Port of `SequenceMatcher.get_opcodes`. -/
def getOpcodes (a b : List Char) : List Op :=
  getOpcodesGo (getMatchingBlocks a b) 0 0

/-- Helper of `get_grouped_opcodes`: trim a leading equal opcode to the last `n`
lines of context. -/
def adjustFirst (n : Nat) : List Op → List Op
  | [] => []
  | c :: rest =>
    (if c.tag = Tag.equal then
      ⟨Tag.equal, max c.i1 (c.i2 - n), c.i2, max c.j1 (c.j2 - n), c.j2⟩
    else c) :: rest

/-- Helper of `get_grouped_opcodes`: trim a trailing equal opcode to the first `n`
lines of context. -/
def adjustLast (n : Nat) : List Op → List Op
  | [] => []
  | [c] =>
    if c.tag = Tag.equal then
      [⟨Tag.equal, c.i1, min c.i2 (c.i1 + n), c.j1, min c.j2 (c.j1 + n)⟩]
    else [c]
  | c :: rest => c :: adjustLast n rest

/-- Grouping loop of `get_grouped_opcodes`: split at large equal runs; a
final group consisting of a single equal opcode is dropped. -/
def groupLoop (n : Nat) : List Op → List Op → List (List Op)
  | [], group =>
    match group with
    | [] => []
    | [g] => if g.tag = Tag.equal then [] else [[g]]
    | gs => [gs]
  | c :: rest, group =>
    if c.tag = Tag.equal ∧ c.i2 - c.i1 > n + n then
      let closed := group ++
        [⟨Tag.equal, c.i1, min c.i2 (c.i1 + n), c.j1, min c.j2 (c.j1 + n)⟩]
      let continued : Op :=
        ⟨Tag.equal, max c.i1 (c.i2 - n), c.i2, max c.j1 (c.j2 - n), c.j2⟩
      closed :: groupLoop n rest [continued]
    else groupLoop n rest (group ++ [c])

/-- Port of `SequenceMatcher.get_grouped_opcodes` with context size `n`. -/
def groupedOpcodes (codes : List Op) (n : Nat) : List (List Op) :=
  let codes1 := if codes.isEmpty then [⟨Tag.equal, 0, 1, 0, 1⟩] else codes
  groupLoop n (adjustLast n (adjustFirst n codes1)) []

/-- Port of `difflib._format_range_unified`. -/
def formatRangeUnified (start stop : Nat) : String :=
  let length := stop - start
  if length = 1 then toString (start + 1)
  else
    let beginning := if length = 0 then start else start + 1
    toString beginning ++ "," ++ toString length

/-- The "lines" (here: single characters) of `a[i1:i2]`, each preceded by
the given diff marker. -/
def sliceMark (a : List Char) (i1 i2 : Nat) (mark : String) : List String :=
  ((a.drop i1).take (i2 - i1)).map (fun c => mark.push c)

/-- The body lines of one opcode group of `unified_diff`. -/
def groupLines (a b : List Char) (lineterm : String) (g : List Op) :
    List String :=
  match g with
  | [] => []
  | first :: _ =>
    let last := g.getLastD first
    ("@@ -" ++ formatRangeUnified first.i1 last.i2 ++ " +" ++
      formatRangeUnified first.j1 last.j2 ++ " @@" ++ lineterm) ::
    (g.map (fun c =>
      match c.tag with
      | Tag.equal => sliceMark a c.i1 c.i2 " "
      | Tag.replace => sliceMark a c.i1 c.i2 "-" ++ sliceMark b c.j1 c.j2 "+"
      | Tag.delete => sliceMark a c.i1 c.i2 "-"
      | Tag.insert => sliceMark b c.j1 c.j2 "+")).flatten

/-- Port of `difflib.unified_diff(a, b, fromfile, tofile, lineterm=lineterm, n=n)`
with empty file dates, collected into a list. -/
def unifiedDiff (a b : List Char) (fromfile tofile lineterm : String)
    (n : Nat) : List String :=
  let groups := groupedOpcodes (getOpcodes a b) n
  if groups.isEmpty then []
  else
    ("--- " ++ fromfile ++ lineterm) :: ("+++ " ++ tofile ++ lineterm) ::
    (groups.map (groupLines a b lineterm)).flatten

/-- The diff computed at source line 352.  The call passes the two fixed
directory *path strings* themselves (not any file contents), so the
result is a constant: the character-level unified diff of
`"/var/tmp/cv0"` against `"/var/tmp/cv1"`. -/
def runReportDiffLines : List String :=
  unifiedDiff cv0tgzDir.data cv1tgzDir.data cv0tgzDir cv1tgzDir "" 0

/-! ## Outcomes and side-effect events -/

/-- How one piece of the program finishes.  `exitFatal` is an explicit
`print(...)` followed by `exit(1)`; `crash` is an uncaught Python
exception (which also terminates the process with a non-zero status, but
without the program's own diagnostic message). -/
inductive Outcome where
  | ok : Outcome
  | exitFatal (msg : String) : Outcome
  | crash (exn : String) : Outcome
deriving DecidableEq, Repr

/-- Side effects of the per-workspace pipeline (lines 293-358). -/
inductive Event where
  | download (path : String) (dest : String) : Event
  | tarOpen (path : String) : Event
  | extractTo (dir : String) : Event
  | removeFile (path : String) : Event
  | diffOut (lines : List String) : Event
deriving DecidableEq, Repr

/-! ## Fatal diagnostic messages (colour escapes elided) -/

def emptyListMsg (cvId : String) : String :=
  "ERROR: Configuration version list blob is empty, but configuration version "
    ++ cvId ++ " detected. Exiting here"

def mismatchMsg (runId : String) (id0 : Json) : String :=
  "ERROR: Configuration version (" ++ runId ++
    ") is different from element 0 in the configuration versions blob (" ++
    jsonToStr id0 ++ "). Exiting here"

def writeErrMsg (p : String) : String := "ERROR writing to " ++ p

def tarOpenErrMsg (p : String) : String :=
  "ERROR: Failed to open tar file " ++ p ++ ". Exiting here"

def extractErrMsg (p : String) : String :=
  "ERROR: Failed to extract configuration tar file " ++ p ++ ". Exiting here"

def removeErrMsg : String :=
  "ERROR: Failed to remove configuration tar files " ++ cv0tgzPath ++ " and "
    ++ cv1tgzPath ++ ". Exiting here"

def dirCreateErrMsg (d : String) : String :=
  "handleDirectories ERROR failed to create " ++ d

/-! ## The configuration-version section of `runReport` (lines 263-358)

The section executes once per workspace whose last run carries a truthy
configuration-version identifier (`runCvId`).  `blob` is the JSON value
the configuration-versions endpoint returned for that workspace.
`multiplePrev` is the binding of the local variable `multipleCV` when
the iteration starts: `none` means the name has never been assigned in
this `runReport` call (referencing it raises `UnboundLocalError`);
because the loop body only ever assigns `multipleCV = True` and never
resets it, a `some true` binding leaks into later iterations.
The `Bool` oracles state whether each external step (download, tar open,
extraction, removal) succeeds; a failing step makes the corresponding
`try/except` print and `exit(1)`.
-/

/-- Lines 263-277: the `len(cvListBlob)` gate.  NOTE: `cvListBlob` is the
parsed response *object*, so `len` counts its top-level keys, not the
configuration versions in its `"data"` list.  Returns the value of
`multipleCV` at line 277, or the terminating outcome. -/
def cvGate (runCvId : String) (blob : Json) (multiplePrev : Option Bool) :
    Except Outcome (Option Bool) :=
  if startsWithPy runCvId "cv-" then
    match lenPy blob with
    | Except.error e => Except.error (Outcome.crash e)
    | Except.ok n =>
      if n = 0 then Except.error (Outcome.exitFatal (emptyListMsg runCvId))
      else if n = 1 then Except.ok multiplePrev
      else Except.ok (some true)
  else Except.ok multiplePrev

/-- Lines 279-291: sanity-check the run's identifier against position 0
of `cvListBlob["data"]` and select positions 0 and 1.  Returns the pair
of identifiers rendered into the download paths, or the terminating
outcome (`exit(1)` on mismatch, an uncaught exception on a shape the
code does not guard against). -/
def resolveCv (runCvId : String) (blob : Json) :
    Except Outcome (String × String) :=
  match getKey blob "data" with
  | Except.error e => Except.error (Outcome.crash e)
  | Except.ok dataJ =>
  match getIdx dataJ 0 with
  | Except.error e => Except.error (Outcome.crash e)
  | Except.ok e0 =>
  match getKey e0 "id" with
  | Except.error e => Except.error (Outcome.crash e)
  | Except.ok id0 =>
  if jsonEqStr id0 runCvId then
    match getKey e0 "links" with
    | Except.error e => Except.error (Outcome.crash e)
    | Except.ok l0 =>
    match getKey l0 "download" with
    | Except.error e => Except.error (Outcome.crash e)
    | Except.ok _cv0download =>
    match getIdx dataJ 1 with
    | Except.error e => Except.error (Outcome.crash e)
    | Except.ok e1 =>
    match getKey e1 "id" with
    | Except.error e => Except.error (Outcome.crash e)
    | Except.ok id1 =>
    match getKey e1 "links" with
    | Except.error e => Except.error (Outcome.crash e)
    | Except.ok l1 =>
    match getKey l1 "download" with
    | Except.error e => Except.error (Outcome.crash e)
    | Except.ok _cv1download =>
      Except.ok (jsonToStr id0, jsonToStr id1)
  else Except.error (Outcome.exitFatal (mismatchMsg runCvId id0))

/-- Lines 293-358: download both archives to the fixed temporary files,
open and extract both, remove the two temporary files, then print the
diff.  The download paths are built from the two resolved identifiers
(`/configuration-versions/{id}/download`); the diff input is the pair of
directory path strings (see `runReportDiffLines`). -/
def downloadAndDiff (cv0s cv1s : String)
    (dl0ok dl1ok open0ok open1ok ext0ok ext1ok rmok : Bool) :
    Outcome × List Event :=
  let ev1 : List Event :=
    [Event.download ("/configuration-versions/" ++ cv0s ++ "/download") cv0tgzPath]
  if dl0ok then
    let ev2 := ev1 ++
      [Event.download ("/configuration-versions/" ++ cv1s ++ "/download") cv1tgzPath]
    if dl1ok then
      let ev3 := ev2 ++ [Event.tarOpen cv0tgzPath]
      if open0ok then
        let ev4 := ev3 ++ [Event.tarOpen cv1tgzPath]
        if open1ok then
          let ev5 := ev4 ++ [Event.extractTo cv0tgzDir]
          if ext0ok then
            let ev6 := ev5 ++ [Event.extractTo cv1tgzDir]
            if ext1ok then
              if rmok then
                (Outcome.ok,
                  ev6 ++ [Event.removeFile cv0tgzPath,
                          Event.removeFile cv1tgzPath,
                          Event.diffOut runReportDiffLines])
              else (Outcome.exitFatal removeErrMsg, ev6)
            else (Outcome.exitFatal (extractErrMsg cv1tgzPath), ev6)
          else (Outcome.exitFatal (extractErrMsg cv0tgzPath), ev5)
        else (Outcome.exitFatal (tarOpenErrMsg cv1tgzPath), ev4)
      else (Outcome.exitFatal (tarOpenErrMsg cv0tgzPath), ev3)
    else (Outcome.exitFatal (writeErrMsg cv1tgzPath), ev2)
  else (Outcome.exitFatal (writeErrMsg cv0tgzPath), ev1)

/-- The whole configuration-version section for one workspace: the gate,
then - when `multipleCV` is bound and true - resolution and the
download/extract/diff pipeline.  Also returns the binding of
`multipleCV` after the iteration (it is never assigned `False`). -/
def cvSection (runCvId : String) (blob : Json) (multiplePrev : Option Bool)
    (dl0ok dl1ok open0ok open1ok ext0ok ext1ok rmok : Bool) :
    Outcome × List Event × Option Bool :=
  match cvGate runCvId blob multiplePrev with
  | Except.error o => (o, [], multiplePrev)
  | Except.ok mcv =>
    match mcv with
    | none => (Outcome.crash "UnboundLocalError", [], none)
    | some false => (Outcome.ok, [], some false)
    | some true =>
      match resolveCv runCvId blob with
      | Except.error o => (o, [], some true)
      | Except.ok pair =>
        let r := downloadAndDiff pair.1 pair.2 dl0ok dl1ok open0ok open1ok
          ext0ok ext1ok rmok
        (r.1, r.2, some true)

/-! ## `handleDirectories` (lines 94-124) on an abstract file system

The file system is the list of directories that currently exist.
`os.mkdir` raises `FileExistsError` (an `OSError`) exactly when the
directory already exists; the `except` clause prints the failing
directory and calls `exit(1)`, modelled by `Except.error dir`. -/

/-- One `os.mkdir(dir)` call guarded by the `try/except OSError`. -/
def mkdirStep (fs : List String) (d : String) : Except String (List String) :=
  if d ∈ fs then Except.error d else Except.ok (d :: fs)

/-- Port of `handleDirectories(DEBUG, 'create')`: `os.mkdir` on `cv0tgzDir` then
`cv1tgzDir`; the first failure prints that directory and exits. -/
def handleCreate (fs : List String) : Except String (List String) :=
  match mkdirStep fs cv0tgzDir with
  | Except.error d => Except.error d
  | Except.ok fs1 => mkdirStep fs1 cv1tgzDir

/-! ## `main` orchestration (lines 507-511)

`main` creates the two scratch directories once, calls `runReport` (which
loops over every workspace), and deletes the directories once afterwards.
Any fatal outcome inside `runReport` terminates the process at that
point, so the deletion step only runs when every workspace completed. -/

/-- Events at the `main` level: directory creation/removal by
`handleDirectories`, and the pipeline events of workspace number `i`.
Workspace pipelines never create or remove the scratch directories
(extraction only writes inside them), which the tagging makes syntactic. -/
inductive MEvent where
  | mkdirEv (d : String) : MEvent
  | rmdirEv (d : String) : MEvent
  | wsEv (i : Nat) (e : Event) : MEvent
deriving DecidableEq, Repr

/-- Is this an event of a workspace pipeline (as opposed to a
`handleDirectories` event)? -/
def MEvent.isWs : MEvent → Bool
  | MEvent.wsEv _ _ => true
  | _ => false

/-- Is this a scratch-directory removal event? -/
def MEvent.isRmdir : MEvent → Bool
  | MEvent.rmdirEv _ => true
  | _ => false

/-- Is this a scratch-directory creation event? -/
def MEvent.isMkdir : MEvent → Bool
  | MEvent.mkdirEv _ => true
  | _ => false

/-- The per-workspace inputs of the configuration-version section. -/
structure WsParams where
  runCvId : String
  blob : Json
  dl0ok : Bool
  dl1ok : Bool
  open0ok : Bool
  open1ok : Bool
  ext0ok : Bool
  ext1ok : Bool
  rmok : Bool

/-- The workspace loop of `runReport` (lines 225-423, restricted to the
workspaces that reach the configuration-version section): run each
section in order, threading the `multipleCV` binding, and stop at the
first non-`ok` outcome (the process exits there). -/
def runReportLoop : List WsParams → Option Bool → Nat → Outcome × List MEvent
  | [], _, _ => (Outcome.ok, [])
  | w :: ws, mprev, i =>
    let r := cvSection w.runCvId w.blob mprev w.dl0ok w.dl1ok w.open0ok
      w.open1ok w.ext0ok w.ext1ok w.rmok
    let tagged := r.2.1.map (MEvent.wsEv i)
    if r.1 = Outcome.ok then
      let rest := runReportLoop ws r.2.2 (i + 1)
      (rest.1, tagged ++ rest.2)
    else (r.1, tagged)

/-- Lines 507-511 of `main`: `handleDirectories('create')`, then
`runReport`, then `handleDirectories('delete')` - the deletion only
happens when `runReport` returned (i.e. no workspace was fatal). -/
def mainRun (fs0 : List String) (wss : List WsParams) : Outcome × List MEvent :=
  match handleCreate fs0 with
  | Except.error d => (Outcome.exitFatal (dirCreateErrMsg d), [])
  | Except.ok _ =>
    let created := [MEvent.mkdirEv cv0tgzDir, MEvent.mkdirEv cv1tgzDir]
    let r := runReportLoop wss none 0
    if r.1 = Outcome.ok then
      (Outcome.ok, created ++ r.2 ++
        [MEvent.rmdirEv cv0tgzDir, MEvent.rmdirEv cv1tgzDir])
    else (r.1, created ++ r.2)

/-! ## Start-up: module-level `TFE_ADDR` handling and `main`'s checks -/

/-- Lines 28-30, executed at module import time, before `main`:
`TFE_ADDR = os.getenv('TFE_ADDR')` followed immediately by
`TFE_ADDR.startswith(...)`.  When the variable is absent, `getenv`
returns `None` and the `startswith` attribute access raises
`AttributeError` - there is no guard. -/
def moduleInit (tfeAddr : Option String) : Except String String :=
  match tfeAddr with
  | none => Except.error "AttributeError"
  | some s =>
    if startsWithPy s "https://" || startsWithPy s "http://" then Except.ok s
    else Except.ok ("https://" ++ s)

def missingAddrMsg : String :=
  "ERROR: Please export TFE_ADDR as an environment variable in the form https://dev-tfe.hsbc.com"

def missingTokenMsg : String :=
  "ERROR: Please export TFE_TOKEN as an environment variable"

def missingCacertMsg : String :=
  "ERROR: Please export local path to TFE_CACERT as an environment variable"

/-- Program start-up: the module-level initialisation runs first; only
if it completes does `main` run its environment checks (lines 447-457).
After a successful `moduleInit` the address is a string, so `main`'s
`TFE_ADDR is None` check can never fire. -/
def programStart (tfeAddr tfeToken tfeCacert : Option String) : Outcome :=
  match moduleInit tfeAddr with
  | Except.error e => Outcome.crash e
  | Except.ok _ =>
    match tfeToken with
    | none => Outcome.exitFatal missingTokenMsg
    | some _ =>
      match tfeCacert with
      | none => Outcome.exitFatal missingCacertMsg
      | some _ => Outcome.ok

/-! ## `runReport` header output (lines 189-194) -/

def colGreen : String := "\x1b[0;32m"
def colDefault : String := "\x1b[1;32m"
def colBWhite : String := "\x1b[1;37m"
def colEndc : String := "\x1b[0m"

/-- Line 191. -/
def addrLine (addr : String) : String :=
  colGreen ++ "TFE." ++ colDefault ++ "Address:         " ++ colBWhite ++
    addr ++ colEndc

/-- Line 192. -/
def cacertLine (cert : String) : String :=
  colGreen ++ "TFE." ++ colDefault ++ "CA Cert file:    " ++ colBWhite ++
    cert ++ colEndc

/-- Line 194: the bearer token, printed verbatim. -/
def tokenLine (token : String) : String :=
  colGreen ++ "TFE." ++ colDefault ++ "TFE Token:       " ++ colBWhite ++
    token ++ colEndc

/-- Lines 189-194: the banner printed at the top of `runReport`.
`ruler` stands for the terminal-width `drawLine()` output (independent
of every credential).  The token line is printed exactly when the quiet
flag is off and the debug flag is on. -/
def reportHeader (quiet dbg : Bool) (ruler addr cert token : String) :
    List String :=
  if quiet then []
  else [ruler, addrLine addr, cacertLine cert] ++
    (if dbg then [tokenLine token] else [])

/-! ## Concrete API responses used in the theorems -/

/-- A typical configuration-version record: an identifier and a
`links.download` reference. -/
def cvEntry (id dl : String) : Json :=
  Json.obj [("id", Json.str id),
            ("links", Json.obj [("download", Json.str dl)])]

/-- A realistic configuration-versions response for a workspace with
exactly ONE configuration version: the JSON:API object carries `data`,
`links` and `meta` keys, so `len()` of the object is 3. -/
def blobOneVersion : Json :=
  Json.obj [("data", Json.arr [cvEntry "cv-aaa" "/api/v2/configuration-versions/cv-aaa/download"]),
            ("links", Json.obj []),
            ("meta", Json.obj [])]

/-- A realistic configuration-versions response with an EMPTY version
list: `data` is `[]` but the object still has 3 keys. -/
def blobEmptyList : Json :=
  Json.obj [("data", Json.arr []),
            ("links", Json.obj []),
            ("meta", Json.obj [])]

/-- A response whose only top-level key is `data`, holding two versions
whose position-0 identifier matches the run. -/
def blobTwoVersionsOneKey : Json :=
  Json.obj [("data", Json.arr
    [cvEntry "cv-c0" "/api/v2/configuration-versions/cv-c0/download",
     cvEntry "cv-c1" "/api/v2/configuration-versions/cv-c1/download"])]

/-- A response whose only top-level key is `data`, holding two versions
whose position-0 identifier does NOT match the run identifier used with
it ("cv-zzz"). -/
def blobMismatchOneKey : Json :=
  Json.obj [("data", Json.arr
    [cvEntry "cv-m0" "/api/v2/configuration-versions/cv-m0/download",
     cvEntry "cv-m1" "/api/v2/configuration-versions/cv-m1/download"])]

/-- A realistic two-version response (three top-level keys). -/
def blobTwoVersions : Json :=
  Json.obj [("data", Json.arr
    [cvEntry "cv-f0" "/api/v2/configuration-versions/cv-f0/download",
     cvEntry "cv-f1" "/api/v2/configuration-versions/cv-f1/download"]),
    ("links", Json.obj []),
    ("meta", Json.obj [])]

/-- Workspace inputs whose download of the first archive fails (the
process exits inside `callTFE` while writing the blob). -/
def wsFailingDownload : WsParams :=
  ⟨"cv-f0", blobTwoVersions, false, true, true, true, true, true, true⟩

/-- Workspace inputs for a fully successful pipeline pass. -/
def wsHappy : WsParams :=
  ⟨"cv-f0", blobTwoVersions, true, true, true, true, true, true, true⟩

/-! ## Claim theorems -/

/-- Claim C1 (code_bug).  The claim says the diff operation compares the
contents of the two extracted directories and yields an empty sequence
when the trees are identical.  In the source (line 352) the arguments of
`difflib.unified_diff` are the directory *path strings* themselves, so
the emitted diff is the constant character-level diff of
`"/var/tmp/cv0"` against `"/var/tmp/cv1"` - a fixed non-empty five-line
sequence that never depends on any extracted content; in particular it is
non-empty even when the two extracted trees are identical. -/
theorem diff_is_constant_path_diff_and_nonempty :
    runReportDiffLines =
      ["--- /var/tmp/cv0", "+++ /var/tmp/cv1", "@@ -12 +12 @@", "-0", "+1"]
    ∧ runReportDiffLines ≠ [] := by
  constructor
  · decide
  · decide

/-- Claim C2 (code_bug).  The claim says a workspace whose run references
a `cv-` identifier and whose version list has exactly one entry is
skipped without any fault.  On the realistic one-version response
(`data`/`links`/`meta` keys) the gate tests `len()` of the response
object - which is 3, not 1 - so the code enters the multiple-version
branch and dies with an uncaught `IndexError` at
`cvListBlob["data"][1]`; the workspace is not skipped and the process
terminates. -/
theorem single_version_workspace_crashes :
    (cvSection "cv-aaa" blobOneVersion none true true true true true true true).1
      = Outcome.crash "IndexError"
    ∧ (cvSection "cv-aaa" blobOneVersion none true true true true true true true).1
      ≠ Outcome.ok := by
  constructor
  · decide
  · decide

/-- Claim C5 (code_bug).  The claim says an empty version list with an
expected `cv-` reference is a reported fatal consistency fault.  The
coded check `len(cvListBlob) == 0` tests the number of top-level keys of
the response object, so on the realistic empty-list response
(`{"data": [], "links": ..., "meta": ...}`, 3 keys) the code instead
enters the multiple-version branch and dies with an uncaught
`IndexError` at `cvListBlob["data"][0]` - a non-zero exit, but not the
diagnosed consistency fault the claim (and the code's own error message)
describes. -/
theorem empty_version_list_uncaught_index_error :
    (cvSection "cv-bbb" blobEmptyList none true true true true true true true).1
      = Outcome.crash "IndexError"
    ∧ (cvSection "cv-bbb" blobEmptyList none true true true true true true true).1
      ≠ Outcome.exitFatal (emptyListMsg "cv-bbb") := by
  constructor
  · decide
  · decide

/-- Claim C8 (code_bug).  The claim says a missing base-address variable
is validated at start-up and reported with a descriptive message.  The
module-level code (line 29) calls `.startswith` on the result of
`os.getenv('TFE_ADDR')` with no guard, so an absent variable raises
`AttributeError` before `main`'s check (line 447) can run: the process
crashes without the documented message, regardless of the other
environment variables. -/
theorem missing_addr_crashes_before_validation :
    programStart none none none = Outcome.crash "AttributeError"
    ∧ programStart none (some "tok") (some "/cacert.pem")
        = Outcome.crash "AttributeError"
    ∧ Outcome.crash "AttributeError" ≠ Outcome.exitFatal missingAddrMsg := by
  refine ⟨rfl, rfl, ?_⟩
  decide

/-- Claim C3, counterexample.  The claim quantifies over every workspace
whose version list has at least two entries and whose run references the
position-0 identifier.  On a response whose only top-level key is `data`
(two versions inside), `len(cvListBlob)` is 1, so the code takes the
`firstCV` branch, never assigns `multipleCV`, and line 277 raises
`UnboundLocalError`: no version is selected and no download happens,
although the version list has two entries and the run matches
position 0. -/
theorem two_versions_one_key_unbound_crash :
    cvSection "cv-c0" blobTwoVersionsOneKey none true true true true true true true
      = (Outcome.crash "UnboundLocalError", [], none) := by
  decide

/-- Every branch of the pipeline that is entered with a successful first
download has the two download events - current version then previous
version - at the head of its trace. -/
theorem downloadAndDiff_head_events (c0 c1 : String)
    (dl1 o0 o1 x0 x1 rm : Bool) :
    ∃ rest, (downloadAndDiff c0 c1 true dl1 o0 o1 x0 x1 rm).2 =
      Event.download ("/configuration-versions/" ++ c0 ++ "/download") cv0tgzPath ::
      Event.download ("/configuration-versions/" ++ c1 ++ "/download") cv1tgzPath ::
      rest := by
  cases dl1 <;> cases o0 <;> cases o1 <;> cases x0 <;> cases x1 <;> cases rm <;>
    exact ⟨_, rfl⟩

/-- Claim C3 (corrected).  Amended with the premise that the fetched
response object has at least two top-level keys (every real JSON:API
response does - `data`, `links`, `meta`): then the resolver takes
position 0 as current and position 1 as previous, and the two downloads
that follow are exactly those two versions' archives, fetched via the
download endpoint derived from each identifier, current first. -/
theorem resolver_selects_positions_0_and_1
    (runCvId id1 : String) (kvs : List (String × Json)) (ds : List Json)
    (e0 l0 d0 e1 l1 d1 : Json) (mprev : Option Bool)
    (dl1 o0 o1 x0 x1 rm : Bool)
    (hpre : startsWithPy runCvId "cv-" = true)
    (hlen : 2 ≤ kvs.length)
    (hdata : getKey (Json.obj kvs) "data" = Except.ok (Json.arr ds))
    (h0 : ds[0]? = some e0)
    (hid0 : getKey e0 "id" = Except.ok (Json.str runCvId))
    (hl0 : getKey e0 "links" = Except.ok l0)
    (hd0 : getKey l0 "download" = Except.ok d0)
    (h1 : ds[1]? = some e1)
    (hid1 : getKey e1 "id" = Except.ok (Json.str id1))
    (hl1 : getKey e1 "links" = Except.ok l1)
    (hd1 : getKey l1 "download" = Except.ok d1) :
    resolveCv runCvId (Json.obj kvs) = Except.ok (runCvId, id1)
    ∧ ∃ rest,
      (cvSection runCvId (Json.obj kvs) mprev true dl1 o0 o1 x0 x1 rm).2.1 =
        Event.download ("/configuration-versions/" ++ runCvId ++ "/download") cv0tgzPath ::
        Event.download ("/configuration-versions/" ++ id1 ++ "/download") cv1tgzPath ::
        rest := by
  have hgate : cvGate runCvId (Json.obj kvs) mprev = Except.ok (some true) := by
    have h2 : ¬ kvs.length = 0 := by omega
    have h3 : ¬ kvs.length = 1 := by omega
    simp [cvGate, hpre, lenPy, h2, h3]
  have hres : resolveCv runCvId (Json.obj kvs) = Except.ok (runCvId, id1) := by
    simp [resolveCv, hdata, getIdx, h0, h1, hid0, hid1, hl0, hl1, hd0, hd1,
      jsonEqStr, jsonToStr]
  refine ⟨hres, ?_⟩
  have hsec :
      (cvSection runCvId (Json.obj kvs) mprev true dl1 o0 o1 x0 x1 rm).2.1 =
        (downloadAndDiff runCvId id1 true dl1 o0 o1 x0 x1 rm).2 := by
    simp [cvSection, hgate, hres]
  rw [hsec]
  exact downloadAndDiff_head_events runCvId id1 dl1 o0 o1 x0 x1 rm

/-- Witness for C3 on the realistic two-version response. -/
theorem resolver_selects_positions_0_and_1_witness :
    startsWithPy "cv-f0" "cv-" = true
    ∧ (resolveCv "cv-f0" blobTwoVersions = Except.ok ("cv-f0", "cv-f1")
      ∧ ∃ rest,
        (cvSection "cv-f0" blobTwoVersions none true true true true true true true).2.1 =
          Event.download ("/configuration-versions/" ++ "cv-f0" ++ "/download") cv0tgzPath ::
          Event.download ("/configuration-versions/" ++ "cv-f1" ++ "/download") cv1tgzPath ::
          rest) := by
  refine ⟨by decide, ?_⟩
  exact resolver_selects_positions_0_and_1 "cv-f0" "cv-f1" _ _ _ _ _ _ _ _
    none true true true true true true (by decide) (by decide) rfl rfl rfl rfl
    rfl rfl rfl rfl rfl

/-- Claim C4, counterexample.  On a response whose only top-level key is
`data` and whose position-0 identifier differs from the run's
identifier, the code never reaches the mismatch check: `len()` of the
object is 1, `multipleCV` stays unbound, and line 277 raises
`UnboundLocalError` - the process dies without printing the mismatch
diagnostic the claim promises. -/
theorem mismatch_one_key_not_reported :
    (cvSection "cv-zzz" blobMismatchOneKey none true true true true true true true).1
      = Outcome.crash "UnboundLocalError"
    ∧ (cvSection "cv-zzz" blobMismatchOneKey none true true true true true true true).1
      ≠ Outcome.exitFatal (mismatchMsg "cv-zzz" (Json.str "cv-m0")) := by
  constructor
  · decide
  · decide

/-- Claim C4 (corrected).  Amended with the premise that the fetched
response object has at least two top-level keys: then a run identifier
that differs from position 0's identifier makes the code print the
mismatch message (naming both identifiers) and exit with a non-zero
status. -/
theorem mismatch_is_reported_fatal
    (runCvId : String) (kvs : List (String × Json)) (ds : List Json)
    (e0 id0 : Json) (mprev : Option Bool)
    (dl0 dl1 o0 o1 x0 x1 rm : Bool)
    (hpre : startsWithPy runCvId "cv-" = true)
    (hlen : 2 ≤ kvs.length)
    (hdata : getKey (Json.obj kvs) "data" = Except.ok (Json.arr ds))
    (h0 : ds[0]? = some e0)
    (hid0 : getKey e0 "id" = Except.ok id0)
    (hne : jsonEqStr id0 runCvId = false) :
    (cvSection runCvId (Json.obj kvs) mprev dl0 dl1 o0 o1 x0 x1 rm).1
      = Outcome.exitFatal (mismatchMsg runCvId id0) := by
  have hgate : cvGate runCvId (Json.obj kvs) mprev = Except.ok (some true) := by
    have h2 : ¬ kvs.length = 0 := by omega
    have h3 : ¬ kvs.length = 1 := by omega
    simp [cvGate, hpre, lenPy, h2, h3]
  have hres : resolveCv runCvId (Json.obj kvs)
      = Except.error (Outcome.exitFatal (mismatchMsg runCvId id0)) := by
    simp [resolveCv, hdata, getIdx, h0, hid0, hne]
  simp [cvSection, hgate, hres]

/-- Witness for C4: run identifier "cv-q" against the two-version
response whose position 0 is "cv-f0". -/
theorem mismatch_is_reported_fatal_witness :
    jsonEqStr (Json.str "cv-f0") "cv-q" = false
    ∧ (cvSection "cv-q" blobTwoVersions none true true true true true true true).1
      = Outcome.exitFatal (mismatchMsg "cv-q" (Json.str "cv-f0")) := by
  refine ⟨by decide, ?_⟩
  exact mismatch_is_reported_fatal "cv-q" _ _ _ _ none true true true true
    true true true (by decide) (by decide) rfl rfl rfl (by decide)

/-- Claim C6, counterexample.  When a workspace's pipeline is fatal (here
the first archive download fails), the process exits at that point: the
scratch directories were created but no removal event ever happens, so
they are NOT destroyed before the process exits, contradicting the
claimed unconditional teardown. -/
theorem staging_dirs_not_removed_on_failure :
    (mainRun [] [wsFailingDownload]).1 ≠ Outcome.ok
    ∧ (mainRun [] [wsFailingDownload]).2.filter MEvent.isRmdir = []
    ∧ (mainRun [] [wsFailingDownload]).2.filter MEvent.isMkdir =
        [MEvent.mkdirEv cv0tgzDir, MEvent.mkdirEv cv1tgzDir] := by
  refine ⟨?_, ?_, ?_⟩
  · decide
  · decide
  · decide

/-- Workspace pipelines emit only workspace-tagged events: they never
create or remove the scratch directories. -/
theorem runReportLoop_events_ws (wss : List WsParams) :
    ∀ (mprev : Option Bool) (i : Nat),
      ∀ e ∈ (runReportLoop wss mprev i).2, MEvent.isWs e = true := by
  induction wss with
  | nil =>
    intro mprev i e he
    simp [runReportLoop] at he
  | cons w ws ih =>
    intro mprev i e he
    simp only [runReportLoop] at he
    by_cases h : (cvSection w.runCvId w.blob mprev w.dl0ok w.dl1ok w.open0ok
        w.open1ok w.ext0ok w.ext1ok w.rmok).1 = Outcome.ok
    · rw [if_pos h] at he
      rcases List.mem_append.mp he with hm | hm
      · rcases List.mem_map.mp hm with ⟨x, _, hx⟩
        rw [← hx]
        rfl
      · exact ih _ _ e hm
    · rw [if_neg h] at he
      rcases List.mem_map.mp he with ⟨x, _, hx⟩
      rw [← hx]
      rfl

/-- Claim C6 (corrected).  The actual lifecycle: the two scratch
directories are created exactly once, at start-up, before any workspace
is processed; every event in between is a workspace-pipeline event (no
intermediate creation or teardown, so the directories persist across
workspace iterations); and the removal events happen exactly when the
whole run finished without a fatal outcome, at the very end. -/
theorem staging_created_once_removed_only_on_success
    (fs0 : List String) (wss : List WsParams)
    (h : ∃ fs1, handleCreate fs0 = Except.ok fs1) :
    ∃ middle,
      (mainRun fs0 wss).2 =
        MEvent.mkdirEv cv0tgzDir :: MEvent.mkdirEv cv1tgzDir ::
          (middle ++
            (if (mainRun fs0 wss).1 = Outcome.ok then
              [MEvent.rmdirEv cv0tgzDir, MEvent.rmdirEv cv1tgzDir]
            else []))
      ∧ ∀ e ∈ middle, MEvent.isWs e = true := by
  rcases h with ⟨fs1, h1⟩
  refine ⟨(runReportLoop wss none 0).2, ?_, runReportLoop_events_ws wss none 0⟩
  by_cases ho : (runReportLoop wss none 0).1 = Outcome.ok
  · simp [mainRun, h1, ho]
  · simp [mainRun, h1, ho]

/-- Witness for C6 on a fully successful single-workspace run starting
from an empty file system. -/
theorem staging_created_once_removed_only_on_success_witness :
    handleCreate [] = Except.ok [cv1tgzDir, cv0tgzDir]
    ∧ ∃ middle,
      (mainRun [] [wsHappy]).2 =
        MEvent.mkdirEv cv0tgzDir :: MEvent.mkdirEv cv1tgzDir ::
          (middle ++
            (if (mainRun [] [wsHappy]).1 = Outcome.ok then
              [MEvent.rmdirEv cv0tgzDir, MEvent.rmdirEv cv1tgzDir]
            else []))
      ∧ ∀ e ∈ middle, MEvent.isWs e = true := by
  refine ⟨rfl, ?_⟩
  exact staging_created_once_removed_only_on_success [] [wsHappy]
    ⟨[cv1tgzDir, cv0tgzDir], rfl⟩

/-- Claim C7 (confirmed).  First conjunct: whenever either scratch
directory already exists, the create step stops at the first `os.mkdir`
failure, names that directory (it is one of the two fixed paths and did
exist) and exits non-zero - the existing directory is never reused.
Second conjunct: running the create step twice with no intervening
teardown always fails, because the first run created `cv0tgzDir`. -/
theorem prepare_fails_when_directory_exists :
    (∀ fs : List String, cv0tgzDir ∈ fs ∨ cv1tgzDir ∈ fs →
      ∃ d, handleCreate fs = Except.error d ∧ d ∈ fs ∧
        (d = cv0tgzDir ∨ d = cv1tgzDir))
    ∧ (∀ fs fs2 : List String, handleCreate fs = Except.ok fs2 →
        handleCreate fs2 = Except.error cv0tgzDir) := by
  constructor
  · intro fs h
    by_cases h0 : cv0tgzDir ∈ fs
    · exact ⟨cv0tgzDir, by simp [handleCreate, mkdirStep, h0], h0, Or.inl rfl⟩
    · have h1 : cv1tgzDir ∈ fs := h.resolve_left h0
      refine ⟨cv1tgzDir, ?_, h1, Or.inr rfl⟩
      simp [handleCreate, mkdirStep, h0, h1]
  · intro fs fs2 h
    by_cases h0 : cv0tgzDir ∈ fs
    · simp [handleCreate, mkdirStep, h0] at h
    · by_cases h1 : cv1tgzDir ∈ fs
      · simp [handleCreate, mkdirStep, h0, h1] at h
      · have hne : cv1tgzDir ≠ cv0tgzDir := by decide
        simp [handleCreate, mkdirStep, h0, h1, hne] at h
        rw [← h]
        simp [handleCreate, mkdirStep]

/-- Witness for C7: a file system where `cv0tgzDir` already exists makes
the create step fail naming it, and running create twice from an empty
file system fails the second time. -/
theorem prepare_fails_when_directory_exists_witness :
    (∃ d, handleCreate [cv0tgzDir] = Except.error d ∧ d ∈ [cv0tgzDir] ∧
      (d = cv0tgzDir ∨ d = cv1tgzDir))
    ∧ handleCreate [cv1tgzDir, cv0tgzDir] = Except.error cv0tgzDir := by
  constructor
  · exact prepare_fails_when_directory_exists.1 [cv0tgzDir]
      (Or.inl (List.mem_singleton.mpr rfl))
  · exact prepare_fails_when_directory_exists.2 [] [cv1tgzDir, cv0tgzDir] rfl

/-- Claim C9 (confirmed).  On the success path the pipeline's event
sequence is: both downloads written to the two fixed temporary archive
files, both tar opens, both extractions, then the removal of both
temporary files, and only then the diff.  When removal fails, the
process exits non-zero with the removal diagnostic (and the diff never
happens: the failure trace ends at the extractions). -/
theorem tgz_removed_after_extraction_before_diff (c0 c1 : String) :
    downloadAndDiff c0 c1 true true true true true true true =
      (Outcome.ok,
        [Event.download ("/configuration-versions/" ++ c0 ++ "/download") cv0tgzPath,
         Event.download ("/configuration-versions/" ++ c1 ++ "/download") cv1tgzPath,
         Event.tarOpen cv0tgzPath, Event.tarOpen cv1tgzPath,
         Event.extractTo cv0tgzDir, Event.extractTo cv1tgzDir,
         Event.removeFile cv0tgzPath, Event.removeFile cv1tgzPath,
         Event.diffOut runReportDiffLines])
    ∧ downloadAndDiff c0 c1 true true true true true true false =
      (Outcome.exitFatal removeErrMsg,
        [Event.download ("/configuration-versions/" ++ c0 ++ "/download") cv0tgzPath,
         Event.download ("/configuration-versions/" ++ c1 ++ "/download") cv1tgzPath,
         Event.tarOpen cv0tgzPath, Event.tarOpen cv1tgzPath,
         Event.extractTo cv0tgzDir, Event.extractTo cv1tgzDir]) := by
  exact ⟨rfl, rfl⟩

/-- The token line determines the token: the fixed surroundings cancel. -/
theorem tokenLine_inj {t1 t2 : String} (h : tokenLine t1 = tokenLine t2) :
    t1 = t2 := by
  have hd : (colGreen ++ "TFE." ++ colDefault ++ "TFE Token:       " ++
      colBWhite).data ++ (t1.data ++ colEndc.data) =
      (colGreen ++ "TFE." ++ colDefault ++ "TFE Token:       " ++
      colBWhite).data ++ (t2.data ++ colEndc.data) := by
    have h1 := congrArg String.data h
    simpa [tokenLine, String.data_append, List.append_assoc] using h1
  have h2 : t1.data ++ colEndc.data = t2.data ++ colEndc.data :=
    List.append_cancel_left hd
  exact String.ext (List.append_cancel_right h2)

/-- Claim C10 (confirmed).  With the debug flag on and the quiet flag
off, the banner contains the line that embeds the bearer token verbatim,
and two runs that differ only in the token value produce different
output: the program's standard output is not independent of the
secret. -/
theorem debug_output_reveals_token
    (ruler addr cert t1 t2 : String) (hne : t1 ≠ t2) :
    tokenLine t1 ∈ reportHeader false true ruler addr cert t1
    ∧ reportHeader false true ruler addr cert t1 ≠
        reportHeader false true ruler addr cert t2 := by
  constructor
  · simp [reportHeader]
  · intro h
    have h1 : (reportHeader false true ruler addr cert t1).getLast?
        = some (tokenLine t1) := rfl
    have h2 : (reportHeader false true ruler addr cert t2).getLast?
        = some (tokenLine t2) := rfl
    have h3 : some (tokenLine t1) = some (tokenLine t2) := by
      rw [← h1, ← h2, h]
    exact hne (tokenLine_inj (Option.some.inj h3))

/-- Witness for C10 at two concrete distinct tokens. -/
theorem debug_output_reveals_token_witness :
    "token-A" ≠ "token-B"
    ∧ tokenLine "token-A" ∈ reportHeader false true "" "addr" "cert" "token-A"
    ∧ reportHeader false true "" "addr" "cert" "token-A" ≠
        reportHeader false true "" "addr" "cert" "token-B" := by
  have hne : "token-A" ≠ "token-B" := by decide
  have h := debug_output_reveals_token "" "addr" "cert" "token-A" "token-B" hne
  exact ⟨hne, h.1, h.2⟩
